import Mathlib

/-!
Verification of the geometry core of the LogoRust repository
(`src/geometry.rs`).  The `f32` arithmetic of the source is modelled over
the real numbers; meshes are lists of positions together with a flat list
of triangle indices, exactly as the source builds them.  The single
failure path of the source (polygon construction aborting on fewer than
3 points) is modelled as an `Except` value carrying the spec's
`InvalidGeometry` error.
-/

namespace LogoRust

open Real

/-- A 2D point, the model of Bevy's `Vec2` (source coordinates are `f32`,
modelled as reals). -/
@[ext]
structure Vec2 where
  x : ℝ
  y : ℝ

/-- Mesh data as built by the source: an ordered list of 3D positions and a
flat list of `u32` indices, grouped in consecutive triples, one triple per
triangle. -/
structure MeshData where
  positions : List (ℝ × ℝ × ℝ)
  indices : List ℕ

/-- The spec's error type for the geometry core: its only failure mode. -/
inductive GeometryError where
  | InvalidGeometry
deriving DecidableEq

/-- `degrees_to_radians` from `src/geometry.rs`: `degrees * PI / 180.0`. -/
noncomputable def degrees_to_radians (degrees : ℝ) : ℝ :=
  degrees * π / 180

/-- `create_circle_mesh` from `src/geometry.rs`: ring (annulus) mesh.
`segments` outer-circle vertices at angles `2π·i/segments`, then `segments`
inner-circle vertices at the same angles, then per segment two triangles
`(i, segments+i, next)` and `(next, segments+i, segments+next)` with
`next = (i+1) % segments`. -/
noncomputable def create_circle_mesh (outer_radius inner_radius : ℝ)
    (segments : ℕ) : MeshData :=
  { positions :=
      ((List.range segments).map fun i : ℕ =>
        (outer_radius * Real.cos (2 * π * (i : ℝ) / (segments : ℝ)),
         outer_radius * Real.sin (2 * π * (i : ℝ) / (segments : ℝ)), (0 : ℝ))) ++
      ((List.range segments).map fun i : ℕ =>
        (inner_radius * Real.cos (2 * π * (i : ℝ) / (segments : ℝ)),
         inner_radius * Real.sin (2 * π * (i : ℝ) / (segments : ℝ)), (0 : ℝ)))
    indices :=
      (List.range segments).flatMap fun i =>
        [i, segments + i, (i + 1) % segments,
         (i + 1) % segments, segments + i, segments + (i + 1) % segments] }

/-- `create_filled_circle_mesh` from `src/geometry.rs`: a center vertex at
the origin, `segments` perimeter vertices at angles `2π·i/segments`, and a
fan of `segments` triangles `(0, i+1, next)` where `next` wraps to `1` on
the last segment and is `i+2` otherwise. -/
noncomputable def create_filled_circle_mesh (radius : ℝ) (segments : ℕ) :
    MeshData :=
  { positions :=
      ((0 : ℝ), (0 : ℝ), (0 : ℝ)) ::
      ((List.range segments).map fun i : ℕ =>
        (radius * Real.cos (2 * π * (i : ℝ) / (segments : ℝ)),
         radius * Real.sin (2 * π * (i : ℝ) / (segments : ℝ)), (0 : ℝ)))
    indices :=
      (List.range segments).flatMap fun i =>
        [0, i + 1, if i = segments - 1 then 1 else i + 2] }

/-- `create_triangle_from_points` from `src/geometry.rs`: the three points
as positions with `z = 0` and the single index triple `(0, 1, 2)`. -/
def create_triangle_from_points (p1 p2 p3 : Vec2) : MeshData :=
  { positions := [(p1.x, p1.y, (0 : ℝ)), (p2.x, p2.y, (0 : ℝ)),
                  (p3.x, p3.y, (0 : ℝ))]
    indices := [0, 1, 2] }

/-- `create_polygon_from_points` from `src/geometry.rs`: aborts when fewer
than 3 points are supplied (modelled as the spec's `InvalidGeometry`
error); otherwise emits every point as a position with `z = 0` and
fan-triangulates from point 0, pushing the triple `(0, i, i+1)` for each
`i` in `1 .. points.length - 2`. -/
def create_polygon_from_points (points : List Vec2) :
    Except GeometryError MeshData :=
  if points.length < 3 then
    .error .InvalidGeometry
  else
    .ok { positions := points.map fun p => (p.x, p.y, (0 : ℝ))
          indices :=
            (List.range' 1 (points.length - 2)).flatMap fun i => [0, i, i + 1] }

/-- `calculate_exterior_triangle_points` from `src/geometry.rs`: the two
base vertices on the circle at angles `base_angle ∓ half_side/circle_radius`
and the apex at radius `circle_radius + height` along `base_angle`, where
`half_side = triangle_side / 2` and `height = triangle_side * (√3 / 2)`. -/
noncomputable def calculate_exterior_triangle_points
    (base_angle circle_radius triangle_side : ℝ) : Vec2 × Vec2 × Vec2 :=
  let half_side := triangle_side / 2
  let height := triangle_side * (Real.sqrt 3 / 2)
  let angle1 := base_angle - half_side / circle_radius
  let angle2 := base_angle + half_side / circle_radius
  let p1 : Vec2 := ⟨circle_radius * Real.cos angle1,
                    circle_radius * Real.sin angle1⟩
  let p2 : Vec2 := ⟨circle_radius * Real.cos angle2,
                    circle_radius * Real.sin angle2⟩
  let p3 : Vec2 := ⟨(circle_radius + height) * Real.cos base_angle,
                    (circle_radius + height) * Real.sin base_angle⟩
  (p1, p2, p3)

/-- `calculate_interior_triangle_points` from `src/geometry.rs`: same base
vertices as the exterior version with `inner_radius`, and the apex at
radius `inner_radius - height` along `base_angle`. -/
noncomputable def calculate_interior_triangle_points
    (base_angle inner_radius triangle_side : ℝ) : Vec2 × Vec2 × Vec2 :=
  let half_side := triangle_side / 2
  let height := triangle_side * (Real.sqrt 3 / 2)
  let angle1 := base_angle - half_side / inner_radius
  let angle2 := base_angle + half_side / inner_radius
  let p1 : Vec2 := ⟨inner_radius * Real.cos angle1,
                    inner_radius * Real.sin angle1⟩
  let p2 : Vec2 := ⟨inner_radius * Real.cos angle2,
                    inner_radius * Real.sin angle2⟩
  let p3 : Vec2 := ⟨(inner_radius - height) * Real.cos base_angle,
                    (inner_radius - height) * Real.sin base_angle⟩
  (p1, p2, p3)

/-- `calculate_triangle_centroid` from `src/geometry.rs`: component-wise
mean of the three vertices. -/
noncomputable def calculate_triangle_centroid (p1 p2 p3 : Vec2) : Vec2 :=
  ⟨(p1.x + p2.x + p3.x) / 3, (p1.y + p2.y + p3.y) / 3⟩

/-- Euclidean distance of a point from the origin (spec vocabulary used by
the shape-placement claims). -/
noncomputable def distFromOrigin (p : Vec2) : ℝ :=
  Real.sqrt (p.x ^ 2 + p.y ^ 2)

/-- `RPartDefinition` from `src/geometry.rs`: one named part of the logo
with its polygon contour and draw-order depth. -/
structure RPartDefinition where
  name : String
  points : List Vec2
  z_order : ℝ

/-- `get_all_r_parts` from `src/geometry.rs`: the fixed 8-part table
describing the letter "R". -/
noncomputable def get_all_r_parts : List RPartDefinition :=
  [{ name := "Haut du R", z_order := 0.40,
     points := [⟨-140, 90⟩, ⟨60, 90⟩, ⟨60, 50⟩, ⟨-100, 50⟩] },
   { name := "Gauche du R", z_order := 0.41,
     points := [⟨-80, 50⟩, ⟨-30, 50⟩, ⟨-30, -50⟩, ⟨-80, -50⟩] },
   { name := "Arrondi du R", z_order := 0.42,
     points := [⟨60, 90⟩, ⟨85, 60⟩, ⟨100, 30⟩, ⟨85, 0⟩, ⟨60, -30⟩] },
   { name := "Centre du R", z_order := 0.43,
     points := [⟨60, 50⟩, ⟨40, 50⟩, ⟨60, 10⟩, ⟨40, 10⟩] },
   { name := "Pied gauche du R", z_order := 0.44,
     points := [⟨-80, -50⟩, ⟨-10, -50⟩, ⟨-10, -80⟩, ⟨-140, -80⟩,
                ⟨-160, -50⟩, ⟨-80, -50⟩] },
   { name := "Milieu du R", z_order := 0.45,
     points := [⟨60, -30⟩, ⟨60, 10⟩, ⟨-30, 10⟩, ⟨-30, -30⟩] },
   { name := "Jambe droite du R", z_order := 0.46,
     points := [⟨60, -30⟩, ⟨20, -30⟩, ⟨60, -50⟩, ⟨100, -50⟩] },
   { name := "Pied droit du R", z_order := 0.47,
     points := [⟨160, -50⟩, ⟨30, -50⟩, ⟨30, -80⟩, ⟨120, -80⟩] }]

/-- The flat index list produced by mapping a constant-length block over a
list of segment numbers has length `k` times the number of blocks. -/
theorem flatMap_length_of_const (f : ℕ → List ℕ) (k : ℕ)
    (hf : ∀ i, (f i).length = k) (L : List ℕ) :
    (L.flatMap f).length = k * L.length := by
  induction L with
  | nil => simp
  | cons a t ih =>
    simp only [List.flatMap_cons, List.length_append, List.length_cons, hf, ih]
    ring

/-- C1: `create_polygon_from_points` fails with the `InvalidGeometry` error
on every input list of fewer than 3 points, and succeeds on every other
input — so this is its only failure mode. -/
theorem create_polygon_from_points_invalid (points : List Vec2) :
    (points.length < 3 →
      create_polygon_from_points points = .error .InvalidGeometry) ∧
    (3 ≤ points.length →
      ∃ m, create_polygon_from_points points = .ok m) := by
  constructor
  · intro h
    unfold create_polygon_from_points
    rw [if_pos h]
  · intro h
    unfold create_polygon_from_points
    rw [if_neg (Nat.not_lt.mpr h)]
    exact ⟨_, rfl⟩

/-- Closed instances of `create_polygon_from_points_invalid`: lists of
length 0 and 2 fail with `InvalidGeometry`, a triangle list succeeds. -/
theorem create_polygon_from_points_invalid_witness :
    create_polygon_from_points [] = .error .InvalidGeometry ∧
    create_polygon_from_points [⟨0, 0⟩, ⟨1, 0⟩] = .error .InvalidGeometry ∧
    ∃ m, create_polygon_from_points [⟨0, 0⟩, ⟨1, 0⟩, ⟨0, 1⟩] = .ok m :=
  ⟨(create_polygon_from_points_invalid []).1 (by decide),
   (create_polygon_from_points_invalid [⟨0, 0⟩, ⟨1, 0⟩]).1 (by decide),
   (create_polygon_from_points_invalid [⟨0, 0⟩, ⟨1, 0⟩, ⟨0, 1⟩]).2 (by decide)⟩

/-- C2: on every list of `n ≥ 3` points, `create_polygon_from_points`
succeeds, emits all `n` points as positions in order with `z = 0`, and
fan-triangulates from point 0 with index triples `(0, i, i+1)` for
`i = 1 .. n-2`, producing exactly `n - 2` triangles (`3·(n-2)` indices). -/
theorem create_polygon_from_points_fan (points : List Vec2)
    (h : 3 ≤ points.length) :
    ∃ m, create_polygon_from_points points = .ok m ∧
      m.positions = points.map (fun p => (p.x, p.y, (0 : ℝ))) ∧
      m.positions.length = points.length ∧
      m.indices =
        (List.range' 1 (points.length - 2)).flatMap (fun i => [0, i, i + 1]) ∧
      m.indices.length = 3 * (points.length - 2) := by
  unfold create_polygon_from_points
  rw [if_neg (Nat.not_lt.mpr h)]
  refine ⟨_, rfl, rfl, by simp, rfl, ?_⟩
  rw [flatMap_length_of_const (fun i => [0, i, i + 1]) 3 (fun i => rfl),
    List.length_range']

/-- Closed instance of `create_polygon_from_points_fan` at a 3-point list:
the mesh holds the three positions and exactly one triangle `(0, 1, 2)`. -/
theorem create_polygon_from_points_fan_witness :
    3 ≤ ([⟨0, 0⟩, ⟨6, 0⟩, ⟨0, 6⟩] : List Vec2).length ∧
    ∃ m, create_polygon_from_points [⟨0, 0⟩, ⟨6, 0⟩, ⟨0, 6⟩] = .ok m ∧
      m.positions =
        ([⟨0, 0⟩, ⟨6, 0⟩, ⟨0, 6⟩] : List Vec2).map
          (fun p => (p.x, p.y, (0 : ℝ))) ∧
      m.positions.length = ([⟨0, 0⟩, ⟨6, 0⟩, ⟨0, 6⟩] : List Vec2).length ∧
      m.indices =
        (List.range' 1 (([⟨0, 0⟩, ⟨6, 0⟩, ⟨0, 6⟩] : List Vec2).length - 2)).flatMap
          (fun i => [0, i, i + 1]) ∧
      m.indices.length = 3 * (([⟨0, 0⟩, ⟨6, 0⟩, ⟨0, 6⟩] : List Vec2).length - 2) :=
  ⟨by decide, create_polygon_from_points_fan [⟨0, 0⟩, ⟨6, 0⟩, ⟨0, 6⟩] (by decide)⟩

/-- C3: for every `segments ≥ 3` and radii, `create_circle_mesh` produces
exactly `2·segments` positions — the `segments` outer-circle points at
angles `2π·i/segments` followed by the `segments` inner-circle points at
the same angles — and exactly `2·segments` triangles (`6·segments`
indices), and every emitted index is `< 2·segments`. -/
theorem create_circle_mesh_spec (r1 r2 : ℝ) (segments : ℕ)
    (h : 3 ≤ segments) :
    (create_circle_mesh r1 r2 segments).positions.length = 2 * segments ∧
    (∀ i < segments,
      (create_circle_mesh r1 r2 segments).positions[i]? =
        some (r1 * Real.cos (2 * π * i / segments),
              r1 * Real.sin (2 * π * i / segments), 0) ∧
      (create_circle_mesh r1 r2 segments).positions[segments + i]? =
        some (r2 * Real.cos (2 * π * i / segments),
              r2 * Real.sin (2 * π * i / segments), 0)) ∧
    (create_circle_mesh r1 r2 segments).indices.length = 6 * segments ∧
    ∀ j ∈ (create_circle_mesh r1 r2 segments).indices, j < 2 * segments := by
  have hpos : 0 < segments := by omega
  refine ⟨?_, ?_, ?_, ?_⟩
  · simp [create_circle_mesh, two_mul]
  · intro i hi
    have hns : ¬ (segments + i < segments) := by omega
    constructor
    · simp [create_circle_mesh, List.getElem?_append, List.getElem?_map,
        List.getElem?_range, hi]
    · simp [create_circle_mesh, List.getElem?_append, List.getElem?_map,
        List.getElem?_range, hns, Nat.add_sub_cancel_left, hi,
        List.getElem_append_right, Nat.le_add_right, List.getElem_map,
        List.getElem_range]
  · rw [create_circle_mesh]
    rw [flatMap_length_of_const
      (fun i => [i, segments + i, (i + 1) % segments, (i + 1) % segments,
        segments + i, segments + (i + 1) % segments]) 6 (fun i => rfl)]
    simp [Nat.mul_comm]
  · intro j hj
    rw [create_circle_mesh] at hj
    simp only [List.mem_flatMap, List.mem_range] at hj
    obtain ⟨i, hi, hj⟩ := hj
    have hnext : (i + 1) % segments < segments := Nat.mod_lt _ hpos
    simp only [List.mem_cons, List.not_mem_nil, or_false] at hj
    rcases hj with rfl | rfl | rfl | rfl | rfl | rfl <;> omega

/-- Closed instance of `create_circle_mesh_spec` at radii `2, 1` and
4 segments. -/
theorem create_circle_mesh_spec_witness :
    3 ≤ 4 ∧
    (create_circle_mesh 2 1 4).positions.length = 2 * 4 ∧
    (create_circle_mesh 2 1 4).indices.length = 6 * 4 ∧
    ∀ j ∈ (create_circle_mesh 2 1 4).indices, j < 2 * 4 :=
  ⟨by norm_num, (create_circle_mesh_spec 2 1 4 (by norm_num)).1,
   (create_circle_mesh_spec 2 1 4 (by norm_num)).2.2.1,
   (create_circle_mesh_spec 2 1 4 (by norm_num)).2.2.2⟩

/-- C4: for every `segments ≥ 3` and radius, `create_filled_circle_mesh`
produces exactly `segments + 1` positions whose first (center) entry is
exactly the origin, and exactly `segments` triangles (`3·segments`
indices). -/
theorem create_filled_circle_mesh_spec (r : ℝ) (segments : ℕ)
    (h : 3 ≤ segments) :
    (create_filled_circle_mesh r segments).positions.length = segments + 1 ∧
    (create_filled_circle_mesh r segments).positions.head? =
      some (0, 0, 0) ∧
    (create_filled_circle_mesh r segments).indices.length = 3 * segments := by
  refine ⟨by simp [create_filled_circle_mesh], rfl, ?_⟩
  rw [create_filled_circle_mesh]
  rw [flatMap_length_of_const
    (fun i => [0, i + 1, if i = segments - 1 then 1 else i + 2]) 3
    (fun i => rfl)]
  simp

/-- Closed instance of `create_filled_circle_mesh_spec` at radius `5` and
3 segments. -/
theorem create_filled_circle_mesh_spec_witness :
    3 ≤ 3 ∧
    ((create_filled_circle_mesh 5 3).positions.length = 3 + 1 ∧
    (create_filled_circle_mesh 5 3).positions.head? = some (0, 0, 0) ∧
    (create_filled_circle_mesh 5 3).indices.length = 3 * 3) :=
  ⟨by norm_num, create_filled_circle_mesh_spec 5 3 (by norm_num)⟩

/-- C7: the logo table has exactly 8 entries, their depth (`z_order`)
values are strictly increasing in table order, and every entry has at
least 3 vertices. -/
theorem get_all_r_parts_spec :
    get_all_r_parts.length = 8 ∧
    List.Chain' (fun a b => a < b)
      (get_all_r_parts.map RPartDefinition.z_order) ∧
    ∀ part ∈ get_all_r_parts, 3 ≤ part.points.length := by
  refine ⟨by simp [get_all_r_parts], ?_, ?_⟩
  · simp only [get_all_r_parts, List.map_cons, List.map_nil,
      List.chain'_cons, List.chain'_singleton]
    norm_num
  · intro part hp
    simp only [get_all_r_parts, List.mem_cons, List.not_mem_nil,
      or_false] at hp
    rcases hp with rfl | rfl | rfl | rfl | rfl | rfl | rfl | rfl <;> simp

/-- Distance from the origin of a point given in polar form with a
nonnegative radius. -/
theorem distFromOrigin_polar (r a : ℝ) (hr : 0 ≤ r) :
    distFromOrigin ⟨r * Real.cos a, r * Real.sin a⟩ = r := by
  unfold distFromOrigin
  have hsq : (r * Real.cos a) ^ 2 + (r * Real.sin a) ^ 2 =
      r ^ 2 * (Real.sin a ^ 2 + Real.cos a ^ 2) := by ring
  rw [hsq, Real.sin_sq_add_cos_sq, mul_one, Real.sqrt_sq hr]

/-- C5 counterexample: at `base_angle = 0`, `circle_radius = -1`,
`triangle_side = 0`, the first base vertex of
`calculate_exterior_triangle_points` lies at distance `1` from the origin,
not at distance `circle_radius = -1` — so the distance part of the claim
fails for negative radii. -/
theorem calculate_exterior_triangle_points_neg_radius :
    distFromOrigin (calculate_exterior_triangle_points 0 (-1) 0).1 ≠ -1 := by
  have h1 : (calculate_exterior_triangle_points 0 (-1) 0).1 = ⟨-1, 0⟩ := by
    show (⟨(-1 : ℝ) * Real.cos (0 - 0 / 2 / (-1)),
           (-1 : ℝ) * Real.sin (0 - 0 / 2 / (-1))⟩ : Vec2) = ⟨-1, 0⟩
    simp
  rw [h1]
  show Real.sqrt ((-1 : ℝ) ^ 2 + (0 : ℝ) ^ 2) ≠ -1
  rw [show ((-1 : ℝ) ^ 2 + (0 : ℝ) ^ 2) = 1 by norm_num, Real.sqrt_one]
  norm_num

/-- C5 (amended to nonnegative radius and side):
`calculate_exterior_triangle_points` places its two base vertices on the
circle at angles `base_angle ∓ (side/2)/circle_radius` — both at distance
exactly `circle_radius` from the origin — and its apex along direction
`base_angle` at distance `circle_radius + side·√3/2` from the origin. -/
theorem calculate_exterior_triangle_points_spec
    (base_angle circle_radius triangle_side : ℝ)
    (hr : 0 ≤ circle_radius) (hs : 0 ≤ triangle_side) :
    (calculate_exterior_triangle_points base_angle circle_radius
        triangle_side).1 =
      ⟨circle_radius *
         Real.cos (base_angle - triangle_side / 2 / circle_radius),
       circle_radius *
         Real.sin (base_angle - triangle_side / 2 / circle_radius)⟩ ∧
    (calculate_exterior_triangle_points base_angle circle_radius
        triangle_side).2.1 =
      ⟨circle_radius *
         Real.cos (base_angle + triangle_side / 2 / circle_radius),
       circle_radius *
         Real.sin (base_angle + triangle_side / 2 / circle_radius)⟩ ∧
    distFromOrigin (calculate_exterior_triangle_points base_angle
        circle_radius triangle_side).1 = circle_radius ∧
    distFromOrigin (calculate_exterior_triangle_points base_angle
        circle_radius triangle_side).2.1 = circle_radius ∧
    (calculate_exterior_triangle_points base_angle circle_radius
        triangle_side).2.2 =
      ⟨(circle_radius + triangle_side * Real.sqrt 3 / 2) *
         Real.cos base_angle,
       (circle_radius + triangle_side * Real.sqrt 3 / 2) *
         Real.sin base_angle⟩ ∧
    distFromOrigin (calculate_exterior_triangle_points base_angle
        circle_radius triangle_side).2.2 =
      circle_radius + triangle_side * Real.sqrt 3 / 2 := by
  have hh : 0 ≤ circle_radius + triangle_side * (Real.sqrt 3 / 2) :=
    add_nonneg hr (mul_nonneg hs (by positivity))
  refine ⟨rfl, rfl,
    distFromOrigin_polar circle_radius
      (base_angle - triangle_side / 2 / circle_radius) hr,
    distFromOrigin_polar circle_radius
      (base_angle + triangle_side / 2 / circle_radius) hr, ?_, ?_⟩
  · refine Vec2.ext ?_ ?_ <;>
      simp only [calculate_exterior_triangle_points] <;> ring
  · show distFromOrigin
        ⟨(circle_radius + triangle_side * (Real.sqrt 3 / 2)) *
           Real.cos base_angle,
         (circle_radius + triangle_side * (Real.sqrt 3 / 2)) *
           Real.sin base_angle⟩ =
      circle_radius + triangle_side * Real.sqrt 3 / 2
    rw [distFromOrigin_polar _ _ hh]
    ring

/-- Closed instance of `calculate_exterior_triangle_points_spec` at
`(0, 100, 10)`: both base vertices lie at radius exactly 100 and the apex
lies at distance `100 + 10·√3/2` from the origin. -/
theorem calculate_exterior_triangle_points_spec_witness :
    (0 : ℝ) ≤ 100 ∧ (0 : ℝ) ≤ 10 ∧
    distFromOrigin (calculate_exterior_triangle_points 0 100 10).1 = 100 ∧
    distFromOrigin (calculate_exterior_triangle_points 0 100 10).2.1 = 100 ∧
    distFromOrigin (calculate_exterior_triangle_points 0 100 10).2.2 =
      100 + 10 * Real.sqrt 3 / 2 :=
  ⟨by norm_num, by norm_num,
   (calculate_exterior_triangle_points_spec 0 100 10 (by norm_num)
     (by norm_num)).2.2.1,
   (calculate_exterior_triangle_points_spec 0 100 10 (by norm_num)
     (by norm_num)).2.2.2.1,
   (calculate_exterior_triangle_points_spec 0 100 10 (by norm_num)
     (by norm_num)).2.2.2.2.2⟩

/-- C6 counterexample: at `base_angle = 0`, `inner_radius = 1`,
`triangle_side = 10`, the triangle height `10·√3/2` exceeds the radius, the
apex crosses the origin, and its distance from the origin is positive while
`inner_radius - side·√3/2` is negative — so the apex-distance claim fails. -/
theorem calculate_interior_triangle_points_apex_crossing :
    distFromOrigin (calculate_interior_triangle_points 0 1 10).2.2 ≠
      1 - 10 * Real.sqrt 3 / 2 := by
  have hneg : 1 - 10 * Real.sqrt 3 / 2 < 0 := by
    nlinarith [Real.sq_sqrt (show (0 : ℝ) ≤ 3 by norm_num),
      Real.sqrt_nonneg 3]
  have hpos :
      0 ≤ distFromOrigin (calculate_interior_triangle_points 0 1 10).2.2 := by
    unfold distFromOrigin
    exact Real.sqrt_nonneg _
  intro heq
  rw [heq] at hpos
  linarith

/-- C6 (amended to nonnegative radius with the triangle height at most the
radius): `calculate_interior_triangle_points` computes the same two base
vertices as the exterior variant applied to `inner_radius`, and places its
apex along direction `base_angle` at distance `inner_radius - side·√3/2`
from the origin. -/
theorem calculate_interior_triangle_points_spec
    (base_angle inner_radius triangle_side : ℝ)
    (hr : 0 ≤ inner_radius)
    (hh : triangle_side * Real.sqrt 3 / 2 ≤ inner_radius) :
    (calculate_interior_triangle_points base_angle inner_radius
        triangle_side).1 =
      (calculate_exterior_triangle_points base_angle inner_radius
        triangle_side).1 ∧
    (calculate_interior_triangle_points base_angle inner_radius
        triangle_side).2.1 =
      (calculate_exterior_triangle_points base_angle inner_radius
        triangle_side).2.1 ∧
    distFromOrigin (calculate_interior_triangle_points base_angle
        inner_radius triangle_side).1 = inner_radius ∧
    distFromOrigin (calculate_interior_triangle_points base_angle
        inner_radius triangle_side).2.1 = inner_radius ∧
    (calculate_interior_triangle_points base_angle inner_radius
        triangle_side).2.2 =
      ⟨(inner_radius - triangle_side * Real.sqrt 3 / 2) *
         Real.cos base_angle,
       (inner_radius - triangle_side * Real.sqrt 3 / 2) *
         Real.sin base_angle⟩ ∧
    distFromOrigin (calculate_interior_triangle_points base_angle
        inner_radius triangle_side).2.2 =
      inner_radius - triangle_side * Real.sqrt 3 / 2 := by
  have hh' : 0 ≤ inner_radius - triangle_side * (Real.sqrt 3 / 2) := by
    have heq : triangle_side * (Real.sqrt 3 / 2) =
        triangle_side * Real.sqrt 3 / 2 := by ring
    rw [heq]
    linarith
  refine ⟨rfl, rfl,
    distFromOrigin_polar inner_radius
      (base_angle - triangle_side / 2 / inner_radius) hr,
    distFromOrigin_polar inner_radius
      (base_angle + triangle_side / 2 / inner_radius) hr, ?_, ?_⟩
  · refine Vec2.ext ?_ ?_ <;>
      simp only [calculate_interior_triangle_points] <;> ring
  · show distFromOrigin
        ⟨(inner_radius - triangle_side * (Real.sqrt 3 / 2)) *
           Real.cos base_angle,
         (inner_radius - triangle_side * (Real.sqrt 3 / 2)) *
           Real.sin base_angle⟩ =
      inner_radius - triangle_side * Real.sqrt 3 / 2
    rw [distFromOrigin_polar _ _ hh']
    ring

/-- Closed instance of `calculate_interior_triangle_points_spec` at
`(0, 100, 10)`: both base vertices lie at radius exactly 100 and the apex
lies at distance `100 - 10·√3/2` from the origin. -/
theorem calculate_interior_triangle_points_spec_witness :
    (0 : ℝ) ≤ 100 ∧ 10 * Real.sqrt 3 / 2 ≤ 100 ∧
    distFromOrigin (calculate_interior_triangle_points 0 100 10).1 = 100 ∧
    distFromOrigin (calculate_interior_triangle_points 0 100 10).2.2 =
      100 - 10 * Real.sqrt 3 / 2 := by
  have hsle : 10 * Real.sqrt 3 / 2 ≤ 100 := by
    nlinarith [Real.sq_sqrt (show (0 : ℝ) ≤ 3 by norm_num),
      Real.sqrt_nonneg 3]
  exact ⟨by norm_num, hsle,
    (calculate_interior_triangle_points_spec 0 100 10 (by norm_num)
      hsle).2.2.1,
    (calculate_interior_triangle_points_spec 0 100 10 (by norm_num)
      hsle).2.2.2.2.2⟩

/-- C9: `degrees_to_radians deg` equals `deg * π / 180` for every input
and, as a total function, never fails; in particular it sends `180` to `π`
and `0` to `0` (exactly, in the real-valued model). -/
theorem degrees_to_radians_spec (deg : ℝ) :
    degrees_to_radians deg = deg * π / 180 ∧
    degrees_to_radians 180 = π ∧ degrees_to_radians 0 = 0 := by
  refine ⟨rfl, ?_, ?_⟩ <;> simp [degrees_to_radians]

/-- C8: `calculate_triangle_centroid` returns the arithmetic mean of the
three vertices' coordinates; in particular the centroid of
`(0,0), (6,0), (0,6)` is `(2,2)`. -/
theorem calculate_triangle_centroid_spec (p1 p2 p3 : Vec2) :
    calculate_triangle_centroid p1 p2 p3 =
      ⟨(p1.x + p2.x + p3.x) / 3, (p1.y + p2.y + p3.y) / 3⟩ ∧
    calculate_triangle_centroid ⟨0, 0⟩ ⟨6, 0⟩ ⟨0, 6⟩ = ⟨2, 2⟩ := by
  refine ⟨rfl, ?_⟩
  simp only [calculate_triangle_centroid]
  ext <;> norm_num

/-- C10: on a three-point list, `create_polygon_from_points` succeeds and
produces exactly the mesh of `create_triangle_from_points`: the same three
positions in the same order and the single index triple `(0, 1, 2)`. -/
theorem create_polygon_three_points_eq_triangle (p1 p2 p3 : Vec2) :
    create_polygon_from_points [p1, p2, p3] =
      .ok (create_triangle_from_points p1 p2 p3) := rfl

end LogoRust
